import Mathlib

/-!
# Verification of the bite-tracker domain/service/storage core

Shallow embedding of the bite-tracker repository (Python) in Lean 4:

* `src/models/restaurant.py`, `src/models/visit.py` — self-validating
  dataclasses, embedded as records plus validation functions returning
  `Except PyErr`;
* `src/services/restaurant_service.py`, `src/services/visit_service.py` —
  service-layer orchestration, embedded as functions over an explicit
  storage state;
* `src/repositories/*.py` — SQLite-backed storage, embedded as operations
  over explicit row lists (SQL statements are modelled by their documented
  SQLite semantics: `ORDER BY`, `DELETE ... WHERE`, per-connection
  `PRAGMA foreign_keys` defaulting to off);
* `src/validators/input_validator.py` — date parsing via `datetime.strptime`
  for the three formats `%Y-%m-%d`, `%d/%m/%Y`, `%d-%m-%Y`, embedded with
  CPython `_strptime` regex semantics (`%Y` is exactly four digits, `%d`
  and `%m` accept one or two digits with the documented alternations).

Python exceptions are modelled by the `PyErr` type.  A raised exception is
an `Except.error`; `AttributeError` (raised when a missing attribute such as
the misspelled `resaurant_id` in `visit.py` line 69 is read) is a
constructor separate from the exception classes of the application such as
`NotFoundError` and `BusinessRuleViolationError`.
-/

namespace BiteTracker

/-- Python exceptions that the embedded code can raise.  `validationError`,
`notFoundError`, `businessRuleViolationError` are the exception
classes of the application (`src/exceptions/exceptions.py`); `attributeError` models
the built-in Python `AttributeError` raised on a missing-attribute read. -/
inductive PyErr where
  | validationError (msg : String)
  | notFoundError
  | businessRuleViolationError
  | repositoryError
  | attributeError
  deriving DecidableEq, Repr

/-- Characters removed by Python `str.strip()` (ASCII whitespace; the
source only ever deals with keyboard input, for which this coincides with
the unicode-aware stripping of Python). -/
def isPySpace (c : Char) : Bool :=
  c = ' ' || c = '\t' || c = '\n' || c = '\x0d' || c = '\x0b' || c = '\x0c'

/-- Python `str.strip()` on the underlying character list. -/
def pyStripList (l : List Char) : List Char :=
  ((l.dropWhile isPySpace).reverse.dropWhile isPySpace).reverse

/-- Python `str.strip()`. -/
def pyStrip (s : String) : String := ⟨pyStripList s.data⟩

/-- Python `str.lower()` on one character (ASCII range; the recognized
meal-type words are ASCII). -/
def pyLowerChar (c : Char) : Char :=
  if 'A' ≤ c ∧ c ≤ 'Z' then Char.ofNat (c.toNat + 32) else c

/-- Python `str.lower()`. -/
def pyLower (s : String) : String := ⟨s.data.map pyLowerChar⟩

/-- Python truthiness of an `Optional[str]` value: `None` and the empty
string are falsy, every other string is truthy. -/
def pyTruthy : Option String → Bool
  | none => false
  | some s => s ≠ ""

/-- `len` of an `Optional[str]`, with `None` counted as length `0` (used
only to phrase size ceilings; the source only reads `len` of truthy
values). -/
def optLen (o : Option String) : Nat := (o.getD "").length

/-- The `if field: field = field.strip()` pattern of the models: strip a
string field only when it is truthy. -/
def stripIfTruthy (o : Option String) : Option String :=
  if pyTruthy o then o.map pyStrip else o

/-! ## Restaurant domain model (`src/models/restaurant.py`) -/

/-- The `Restaurant` dataclass fields, in source order. -/
structure RestaurantRec where
  name : String
  location : String
  country : String
  price_range : Int
  id : Option Int := none
  cuisine_type : Option String := none
  phone : Option String := none
  website : Option String := none
  social_media : Option String := none
  deriving DecidableEq, Repr

/-- `Restaurant._validate` (restaurant.py lines 58-104): the check sequence
run by `__post_init__`, in source order, returning the normalized instance
(all validated string fields stripped at the end) or the first
`ValidationError`.  The required fields are typed `str` / `int` in the
embedding, so the `isinstance` test on `price_range` always passes. -/
def restaurantValidate (r : RestaurantRec) : Except PyErr RestaurantRec :=
  if r.name = "" ∨ pyStrip r.name = "" then
    .error (.validationError "Restaurant name is required.")
  else if r.name.length > 100 then
    .error (.validationError "Restaurant name must not exceed 100 chars.")
  else if r.location = "" ∨ pyStrip r.location = "" then
    .error (.validationError "Location is required.")
  else if r.location.length > 150 then
    .error (.validationError "Location must not exceed 150 chars.")
  else if r.country = "" ∨ pyStrip r.country = "" then
    .error (.validationError "Country is required.")
  else if r.country.length > 100 then
    .error (.validationError "Country must not exceed 100 chars.")
  else if r.price_range ∉ ([1, 2, 3, 4] : List Int) then
    .error (.validationError "Price range must be between 1 and 4.")
  else if pyTruthy r.cuisine_type ∧ optLen r.cuisine_type > 50 then
    .error (.validationError "Cuisine type must not exceed 50 chars.")
  else if pyTruthy r.phone ∧ optLen r.phone > 20 then
    .error (.validationError "Phone number must not exceed 20 chars.")
  else if pyTruthy r.website ∧ optLen r.website > 200 then
    .error (.validationError "Website URL must not exceed 200 chars.")
  else if pyTruthy r.social_media ∧ optLen r.social_media > 200 then
    .error (.validationError "Social media URL must not exceed 50 chars.")
  else
    .ok { r with
      name := pyStrip r.name
      location := pyStrip r.location
      country := pyStrip r.country
      cuisine_type := stripIfTruthy r.cuisine_type
      phone := stripIfTruthy r.phone
      website := stripIfTruthy r.website
      social_media := stripIfTruthy r.social_media }

/-- Constructing `Restaurant(...)`: dataclass construction immediately
followed by `__post_init__` validation. -/
def restaurantNew (r : RestaurantRec) : Except PyErr RestaurantRec :=
  restaurantValidate r

/-! ## Calendar dates (`datetime.date`) -/

/-- A `datetime.date` value: year, month, day. -/
structure PyDate where
  year : Nat
  month : Nat
  day : Nat
  deriving DecidableEq, Repr

/-- Gregorian leap-year rule, as used by `datetime`. -/
def isLeapYear (y : Nat) : Bool :=
  (y % 4 = 0 && y % 100 ≠ 0) || y % 400 = 0

/-- Number of days of month `m` of year `y` (months counted 1-12). -/
def daysInMonth (y m : Nat) : Nat :=
  if m = 2 then (if isLeapYear y then 29 else 28)
  else if m = 4 ∨ m = 6 ∨ m = 9 ∨ m = 11 then 30
  else 31

/-- The triples `(y, m, d)` accepted by the `datetime.date` constructor
(`MINYEAR = 1`, `MAXYEAR = 9999`). -/
def dateOk (y m d : Nat) : Bool :=
  1 ≤ y && y ≤ 9999 && 1 ≤ m && m ≤ 12 && 1 ≤ d && d ≤ daysInMonth y m

/-- `datetime.date` strict comparison `a < b` (lexicographic on
year, month, day, as Python compares dates). -/
def dateLt (a b : PyDate) : Bool :=
  a.year < b.year ||
    (a.year = b.year &&
      (a.month < b.month || (a.month = b.month && a.day < b.day)))

/-- `a <= b` on dates. -/
def dateLe (a b : PyDate) : Bool := !dateLt b a

/-! ## Visit domain model (`src/models/visit.py`) -/

/-- The `Visit` dataclass fields, in source order.  `total_cost` is a
Python float used only in an exact order comparison against `0`, modelled
by a rational number. -/
structure VisitRec where
  restaurant_id : Int
  visit_date : PyDate
  rating : Int
  meal_type : String
  id : Option Int := none
  service_rating : Option Int := none
  dishes_ordered : Option String := none
  recommended_dishes : Option String := none
  beverage_ordered : Option String := none
  total_cost : Option ℚ := none
  notes : Option String := none
  would_return : Bool := true
  deriving DecidableEq, Repr

/-- Integer attribute lookup on a `Visit` instance, as Python `getattr` on
the dataclass fields.  Only the names that actually exist resolve; any
other name makes Python raise `AttributeError`. -/
def visitGetIntAttr (v : VisitRec) (attr : String) : Option Int :=
  if attr = "restaurant_id" then some v.restaurant_id
  else if attr = "rating" then some v.rating
  else none

/-- The five recognized meal types (visit.py line 82). -/
def validMealTypes : List String := ["breakfast", "lunch", "dinner", "brunch", "other"]

/-- `Visit._validate` (visit.py lines 63-138), the check sequence run by
`__post_init__`, in source order, relative to `date.today()` passed as
`today`.  The required fields are typed (`int` / `date` / `str` / `bool`),
so every `isinstance` test in the source passes for them.

Line 69 of the source reads
`if not isinstance(self.restaurant_id, int) or self.resaurant_id <= 0:`.
With an integer `restaurant_id` the `isinstance` test succeeds, so Python
evaluates the second operand — an attribute named `resaurant_id` that does
not exist on the class — and raises `AttributeError` before any rule can be
checked.  The lookup is embedded by `visitGetIntAttr v "resaurant_id"`. -/
def visitValidate (today : PyDate) (v : VisitRec) : Except PyErr VisitRec :=
  match visitGetIntAttr v "resaurant_id" with
  | none => .error .attributeError
  | some rid =>
    if rid ≤ 0 then .error (.validationError "Valid restaurant ID is required.")
    else if dateLt today v.visit_date then
      .error (.validationError "Visit date cannot be in the future.")
    else if v.rating ∉ ([1, 2, 3, 4, 5] : List Int) then
      .error (.validationError "Rating must be between 1 and 5.")
    else if v.meal_type = "" then
      .error (.validationError "Meal type is required.")
    else if pyLower v.meal_type ∉ validMealTypes then
      .error (.validationError
        "Meal type must be one of: breakfast, lunch, dinner, brunch, other.")
    else if (match v.service_rating with
             | none => false
             | some n => n ∉ ([1, 2, 3, 4, 5] : List Int)) then
      .error (.validationError "Service rating must be between 1 and 5.")
    else if pyTruthy v.dishes_ordered ∧ optLen v.dishes_ordered > 500 then
      .error (.validationError "Dishes ordered must not exceed 500 chars.")
    else if pyTruthy v.recommended_dishes ∧ optLen v.recommended_dishes > 500 then
      .error (.validationError "Recommended dishes must not exceed 500 chars.")
    else if pyTruthy v.beverage_ordered ∧ optLen v.beverage_ordered > 500 then
      .error (.validationError "Beverage ordered must not exceed 500 chars.")
    else if (match v.total_cost with
             | none => false
             | some c => c < 0) then
      .error (.validationError "Total cost cannot be negative.")
    else if (match v.notes with
             | none => false
             | some s => s.length > 1000) then
      .error (.validationError "Notes must not exceed 1000 chars.")
    else
      .ok { v with
        dishes_ordered := stripIfTruthy v.dishes_ordered
        recommended_dishes := stripIfTruthy v.recommended_dishes
        beverage_ordered := stripIfTruthy v.beverage_ordered
        notes := v.notes.map pyStrip
        meal_type := pyStrip (pyLower v.meal_type) }

/-- Constructing `Visit(...)`: dataclass construction immediately followed
by `__post_init__` validation against `date.today()`. -/
def visitNew (today : PyDate) (v : VisitRec) : Except PyErr VisitRec :=
  visitValidate today v

/-! ## Storage layer (`src/repositories/*.py`)

The two SQLite tables are embedded as explicit row lists together with the
next `AUTOINCREMENT` identifier.  Each SQL statement is modelled by its
documented SQLite semantics.  `PRAGMA foreign_keys` is a per-connection
setting defaulting to off; only the connections that execute
`PRAGMA foreign_keys = ON;` (those of `SqliteVisitRepository._ensure_database_exists`
and `SqliteVisitRepository.add`) enforce the schema
`FOREIGN KEY (restaurant_id) REFERENCES restaurants(id) ON DELETE CASCADE`. -/

/-- A row of the `restaurants` table. -/
structure RestaurantRow where
  id : Int
  name : String
  location : String
  country : String
  cuisine_type : Option String
  price_range : Int
  phone : Option String
  website : Option String
  social_media : Option String
  deriving DecidableEq, Repr

/-- A row of the `visits` table. -/
structure VisitRow where
  id : Int
  restaurant_id : Int
  visit_date : PyDate
  rating : Int
  meal_type : String
  service_rating : Option Int
  dishes_ordered : Option String
  recommended_dishes : Option String
  beverage_ordered : Option String
  total_cost : Option ℚ
  notes : Option String
  would_return : Bool
  deriving DecidableEq, Repr

/-- The persisted state: both tables and their `AUTOINCREMENT` counters. -/
structure Database where
  restaurants : List RestaurantRow
  restaurantNextId : Int
  visits : List VisitRow
  visitNextId : Int
  deriving DecidableEq, Repr

/-- Ordered insertion for the `ORDER BY` model. -/
def orderedInsertB (le : α → α → Bool) (a : α) : List α → List α
  | [] => [a]
  | b :: l => if le a b then a :: b :: l else b :: orderedInsertB le a l

/-- A sort modelling SQL `ORDER BY`: the output is the stored rows
rearranged into non-decreasing order for the given comparison. -/
def insertionSortB (le : α → α → Bool) : List α → List α
  | [] => []
  | a :: l => orderedInsertB le a (insertionSortB le l)

/-- SQLite BINARY collation on TEXT values: byte-wise comparison of the
UTF-8 encodings, which on the embedded character lists is the
lexicographic comparison of code points. -/
def charListLe : List Char → List Char → Bool
  | [], _ => true
  | _ :: _, [] => false
  | a :: as, b :: bs => if a < b then true else if b < a then false else charListLe as bs

/-- `a <= b` for SQLite TEXT ordering. -/
def textLe (a b : String) : Bool := charListLe a.data b.data

/-- `SqliteRestaurantRepository._row_to_restaurant`: build a `Restaurant`
from a row (dataclass construction re-runs `_validate`). -/
def rowToRestaurant (row : RestaurantRow) : Except PyErr RestaurantRec :=
  restaurantNew
    { id := some row.id
      name := row.name
      location := row.location
      country := row.country
      cuisine_type := row.cuisine_type
      price_range := row.price_range
      phone := row.phone
      website := row.website
      social_media := row.social_media }

/-- `SqliteVisitRepository._row_to_visit`: build a `Visit` from a row
(dataclass construction re-runs `_validate` against `date.today()`). -/
def rowToVisit (today : PyDate) (row : VisitRow) : Except PyErr VisitRec :=
  visitNew today
    { id := some row.id
      restaurant_id := row.restaurant_id
      visit_date := row.visit_date
      rating := row.rating
      meal_type := row.meal_type
      service_rating := row.service_rating
      dishes_ordered := row.dishes_ordered
      recommended_dishes := row.recommended_dishes
      beverage_ordered := row.beverage_ordered
      total_cost := row.total_cost
      notes := row.notes
      would_return := row.would_return }

/-- `SqliteRestaurantRepository.add` (restaurant_repository.py 67-112):
`INSERT INTO restaurants ...` with the fields of the already-constructed
`Restaurant`, then return a new `Restaurant` carrying `lastrowid` (its
construction re-runs `_validate`). -/
def sqliteRestaurantAdd (db : Database) (r : RestaurantRec) :
    Database × Except PyErr RestaurantRec :=
  let row : RestaurantRow :=
    { id := db.restaurantNextId
      name := r.name
      location := r.location
      country := r.country
      cuisine_type := r.cuisine_type
      price_range := r.price_range
      phone := r.phone
      website := r.website
      social_media := r.social_media }
  ({ db with
      restaurants := db.restaurants ++ [row]
      restaurantNextId := db.restaurantNextId + 1 },
   restaurantNew { r with id := some db.restaurantNextId })

/-- `SqliteRestaurantRepository.get_by_id` (restaurant_repository.py
114-138): `SELECT * FROM restaurants WHERE id = ?`, `fetchone`, and
conversion of the row when present (`row_factory` is set correctly here). -/
def sqliteRestaurantGetById (db : Database) (rid : Int) :
    Except PyErr (Option RestaurantRec) :=
  match db.restaurants.find? (fun row => row.id = rid) with
  | none => .ok none
  | some row => (rowToRestaurant row).map some

/-- `SqliteRestaurantRepository.get_all` (restaurant_repository.py
140-158): `SELECT * FROM restaurants ORDER BY name` (ascending, SQLite
BINARY collation, i.e. code-point order) and conversion of every row. -/
def sqliteRestaurantGetAll (db : Database) : Except PyErr (List RestaurantRec) :=
  (insertionSortB (fun a b => textLe a.name b.name) db.restaurants).mapM rowToRestaurant

/-- SQLite `DELETE FROM restaurants WHERE id = ?` on a connection whose
foreign-key enforcement is `fk`: dependent `visits` rows are cascaded only
when `fk = true`; the number of directly deleted rows is `rowcount`. -/
def sqlDeleteRestaurant (fk : Bool) (db : Database) (rid : Int) : Database × Nat :=
  let affected := (db.restaurants.filter (fun row => row.id = rid)).length
  let db1 := { db with restaurants := db.restaurants.filter (fun row => row.id ≠ rid) }
  let db2 :=
    if fk then { db1 with visits := db1.visits.filter (fun vr => vr.restaurant_id ≠ rid) }
    else db1
  (db2, affected)

/-- `SqliteRestaurantRepository.delete` (restaurant_repository.py 196-215):
opens a fresh connection and never executes `PRAGMA foreign_keys = ON;`, so
the `DELETE` runs with foreign keys off (SQLite default) and the
`ON DELETE CASCADE` of the schema is not applied; returns `rows_affected > 0`. -/
def sqliteRestaurantDelete (db : Database) (rid : Int) : Database × Bool :=
  let (db2, n) := sqlDeleteRestaurant false db rid
  (db2, n > 0)

/-- Setting attribute `attr` on a `sqlite3.Connection`: the C type accepts
only its own defined attributes; any other name raises `AttributeError`. -/
def connSetAttr (attr : String) : Except PyErr Unit :=
  if attr = "row_factory" ∨ attr = "text_factory" ∨ attr = "isolation_level" then .ok ()
  else .error .attributeError

/-- `SqliteVisitRepository.get_by_restaurant_id` (visit_repository.py
164-186).  Line 171 executes `conn.rowfactory = sqlite3.Row` — the
attribute is misspelled (`row_factory` is the real one), so the assignment
raises `AttributeError`, which `except sqlite3.Error` does not catch.  The
rest of the method is unreachable; were the assignment to succeed, the
connection would still produce plain tuples and the string indexing in
`_row_to_visit` would raise `TypeError` on any found row. -/
def sqliteVisitGetByRestaurantId (db : Database) (rid : Int) :
    Except PyErr (Option VisitRec) :=
  match connSetAttr "rowfactory" with
  | .error e => .error e
  | .ok _ =>
    match db.visits.find? (fun row => row.restaurant_id = rid) with
    | none => .ok none
    | some _ => .error .attributeError

/-- `SqliteVisitRepository.add` (visit_repository.py 83-139): executes
`PRAGMA foreign_keys = ON;`, so the `INSERT` enforces the foreign key
(an `IntegrityError`, re-raised as a repository error, when the
referenced restaurant does not exist); on success the inserted row is
committed and a new `Visit` carrying `lastrowid` is constructed (which
re-runs `Visit._validate`). -/
def sqliteVisitAdd (db : Database) (today : PyDate) (v : VisitRec) :
    Database × Except PyErr VisitRec :=
  if db.restaurants.all (fun row => row.id ≠ v.restaurant_id) then
    (db, .error .repositoryError)
  else
    let row : VisitRow :=
      { id := db.visitNextId
        restaurant_id := v.restaurant_id
        visit_date := v.visit_date
        rating := v.rating
        meal_type := v.meal_type
        service_rating := v.service_rating
        dishes_ordered := v.dishes_ordered
        recommended_dishes := v.recommended_dishes
        beverage_ordered := v.beverage_ordered
        total_cost := v.total_cost
        notes := v.notes
        would_return := v.would_return }
    ({ db with visits := db.visits ++ [row], visitNextId := db.visitNextId + 1 },
     visitNew today { v with id := some db.visitNextId })

/-- `SqliteVisitRepository.get_all` (visit_repository.py 188-206):
`SELECT * FROM visits order by visit_date DESC` (here `row_factory` is
spelled correctly) and conversion of every row via `_row_to_visit`. -/
def sqliteVisitGetAll (db : Database) (today : PyDate) : Except PyErr (List VisitRec) :=
  (insertionSortB (fun a b => dateLe b.visit_date a.visit_date) db.visits).mapM
    (rowToVisit today)

/-! ## Interface-conforming storage operations

`src/repositories/base.py` declares but nothing in the repository
implements `VisitRepository.delete_by_restaurant_id` (the concrete
`SqliteVisitRepository` leaves it abstract).  The operations below are
modelled from the interface contract so that the service-layer rules that
call them can be stated. -/

/-- Modelled from the spec: `VisitRepository.get_by_restaurant_id` as its
contract in `base.py` (and §4.2 of the specification) describes it — the
single `Visit` row for that restaurant, or `None`.  The concrete SQLite
implementation (`sqliteVisitGetByRestaurantId`) instead always raises. -/
def conformingGetVisitByRestaurantId (db : Database) (rid : Int) : Option VisitRow :=
  db.visits.find? (fun row => row.restaurant_id = rid)

/-- Modelled from the spec: `VisitRepository.delete_by_restaurant_id`
(declared abstract in `base.py`, lines 191-202, never implemented): delete
the visit rows of that restaurant, returning whether a row matched. -/
def conformingDeleteVisitByRestaurantId (db : Database) (rid : Int) : Database × Bool :=
  ({ db with visits := db.visits.filter (fun row => row.restaurant_id ≠ rid) },
   db.visits.any (fun row => row.restaurant_id = rid))

/-! ## Visit service (`src/services/visit_service.py`) -/

/-- `VisitService.create_visit` (visit_service.py 31-106) composed with the
concrete repositories: check that the restaurant exists
(`restaurant_repo.get_by_id`), check that it has no visit yet
(`visit_repo.get_by_restaurant_id`), construct the `Visit` (which runs
`_validate`), and persist it (`visit_repo.add`).  A raise at any step
leaves the state unchanged; on success the new state and the persisted
visit are returned.  `a` carries the scalar arguments of the method
(`a.id` is ignored: the service constructs the visit without an id). -/
def createVisitSvc (db : Database) (today : PyDate) (a : VisitRec) :
    Except PyErr (Database × VisitRec) := do
  let restaurant ← sqliteRestaurantGetById db a.restaurant_id
  match restaurant with
  | none => .error .notFoundError
  | some _ =>
    let existing ← sqliteVisitGetByRestaurantId db a.restaurant_id
    match existing with
    | some _ => .error .businessRuleViolationError
    | none =>
      let v ← visitNew today { a with id := none }
      let (db2, added) := sqliteVisitAdd db today v
      (added.map (db2, ·))

/-- `VisitService.get_visit_by_meal_type` (visit_service.py 143-159).  The
blank and unrecognized values raise `ValidationError`; for a recognized
value the method falls through — the
`return self._visit_repo.filter_by_meal_type(normalized)` of line 159 is
indented under the `if normalized not in valid_meal_types:` branch, after
the `raise`, and is therefore unreachable — so Python returns `None`
(embedded as `.ok none`); the repository (`db`) is never consulted. -/
def getVisitByMealTypeSvc (_db : Database) (meal_type : String) :
    Except PyErr (Option (List VisitRec)) :=
  if meal_type = "" ∨ pyStrip meal_type = "" then
    .error (.validationError "Meal type cannot be empty")
  else
    let normalized := pyLower (pyStrip meal_type)
    if normalized ∉ validMealTypes then
      .error (.validationError
        "Ivalid meal type. Must be one of breakfast, lunch, dinner, brunch, other")
    else
      .ok none

/-- `VisitService.delete_visit_for_restaurant` (visit_service.py 268-287)
over the interface-conforming storage operations: raise `NotFoundError`
when the restaurant has no visit, otherwise delete it (and raise
`NotFoundError` if the delete reports no match). -/
def deleteVisitForRestaurantSvc (db : Database) (rid : Int) : Except PyErr Database :=
  match conformingGetVisitByRestaurantId db rid with
  | none => .error .notFoundError
  | some _ =>
    let (db2, success) := conformingDeleteVisitByRestaurantId db rid
    if success then .ok db2 else .error .notFoundError

/-! ## Restaurant service (`src/services/restaurant_service.py`) -/

/-- `RestaurantService.delete_restaurant` (restaurant_service.py 179-213)
composed with the concrete repositories: raise `NotFoundError` when the
restaurant is absent; otherwise consult `visit_repo.get_by_restaurant_id`
and raise `BusinessRuleViolationError` when a visit exists; otherwise
delete, raising `NotFoundError` if no row matched. -/
def deleteRestaurantSvc (db : Database) (rid : Int) : Except PyErr Database := do
  let restaurant ← sqliteRestaurantGetById db rid
  match restaurant with
  | none => .error .notFoundError
  | some _ =>
    let visit ← sqliteVisitGetByRestaurantId db rid
    match visit with
    | some _ => .error .businessRuleViolationError
    | none =>
      let (db2, success) := sqliteRestaurantDelete db rid
      if success then .ok db2 else .error .notFoundError

/-- `RestaurantService.delete_restaurant` with the visit lookup taken from
the interface contract (the service depends on the `VisitRepository`
abstraction; see `conformingGetVisitByRestaurantId`): the service-layer
rule as such, free of the misspelled-attribute fault of the concrete
lookup. -/
def deleteRestaurantSvcConforming (db : Database) (rid : Int) : Except PyErr Database := do
  let restaurant ← sqliteRestaurantGetById db rid
  match restaurant with
  | none => .error .notFoundError
  | some _ =>
    match conformingGetVisitByRestaurantId db rid with
    | some _ => .error .businessRuleViolationError
    | none =>
      let (db2, success) := sqliteRestaurantDelete db rid
      if success then .ok db2 else .error .notFoundError

/-! ## Date-input validation (`src/validators/input_validator.py`)

`InputValidator.validate_date` tries `datetime.strptime` with the formats
`%Y-%m-%d`, `%d/%m/%Y`, `%d-%m-%Y` in that order.  The CPython `_strptime` module
compiles `%d` to the regex `3[0-1]|[1-2]\d|0[1-9]|[1-9]| [1-9]`, `%m` to
`1[0-2]|0[1-9]|[1-9]` and `%Y` to `\d\d\d\d`, anchored on the whole string,
then builds the `datetime.date`, which additionally requires
`1 <= year <= 9999` and the day to exist in the month.  The parsers below
follow those regexes alternative by alternative (the following character is
a literal separator, so ordered deterministic choice coincides with the
backtracking regex). -/

/-- Numeric value of a digit character. -/
def digitVal (c : Char) : Nat := c.toNat - 48

/-- The `%d` field: regex `3[0-1]|[1-2]\d|0[1-9]|[1-9]| [1-9]`, returning
the value and the unconsumed rest. -/
def parseDay : List Char → Option (Nat × List Char)
  | c1 :: c2 :: rest =>
    if c1 = '3' ∧ (c2 = '0' ∨ c2 = '1') then some (30 + digitVal c2, rest)
    else if (c1 = '1' ∨ c1 = '2') ∧ c2.isDigit then
      some (10 * digitVal c1 + digitVal c2, rest)
    else if c1 = '0' ∧ ('1' ≤ c2 ∧ c2 ≤ '9') then some (digitVal c2, rest)
    else if '1' ≤ c1 ∧ c1 ≤ '9' then some (digitVal c1, c2 :: rest)
    else if c1 = ' ' ∧ ('1' ≤ c2 ∧ c2 ≤ '9') then some (digitVal c2, rest)
    else none
  | [c1] => if '1' ≤ c1 ∧ c1 ≤ '9' then some (digitVal c1, []) else none
  | [] => none

/-- The `%m` field: regex `1[0-2]|0[1-9]|[1-9]`. -/
def parseMonth : List Char → Option (Nat × List Char)
  | c1 :: c2 :: rest =>
    if c1 = '1' ∧ ('0' ≤ c2 ∧ c2 ≤ '2') then some (10 + digitVal c2, rest)
    else if c1 = '0' ∧ ('1' ≤ c2 ∧ c2 ≤ '9') then some (digitVal c2, rest)
    else if '1' ≤ c1 ∧ c1 ≤ '9' then some (digitVal c1, c2 :: rest)
    else none
  | [c1] => if '1' ≤ c1 ∧ c1 ≤ '9' then some (digitVal c1, []) else none
  | [] => none

/-- The `%Y` field: regex `\d\d\d\d`, exactly four digits. -/
def parseYear4 : List Char → Option (Nat × List Char)
  | a :: b :: c :: d :: rest =>
    if a.isDigit ∧ b.isDigit ∧ c.isDigit ∧ d.isDigit then
      some (1000 * digitVal a + 100 * digitVal b + 10 * digitVal c + digitVal d, rest)
    else none
  | _ => none

/-- `datetime.strptime(s, "%Y-%m-%d").date()`: regex fullmatch followed by
`datetime.date` construction (`none` both on a format mismatch and on an
out-of-range date, the two causes of `ValueError`). -/
def strptimeYmd (l : List Char) : Option PyDate :=
  match parseYear4 l with
  | none => none
  | some (y, r0) =>
    match r0 with
    | [] => none
    | c1 :: r1 =>
      if c1 = '-' then
        match parseMonth r1 with
        | none => none
        | some (m, r2) =>
          match r2 with
          | [] => none
          | c2 :: r3 =>
            if c2 = '-' then
              match parseDay r3 with
              | none => none
              | some (d, r4) =>
                match r4 with
                | [] => if dateOk y m d then some ⟨y, m, d⟩ else none
                | _ :: _ => none
            else none
      else none

/-- `datetime.strptime(s, f).date()` for `f` the format `"%d" sep "%m" sep
"%Y"` (`sep` is `/` for the second format of the source, `-` for the
third). -/
def strptimeDmy (sep : Char) (l : List Char) : Option PyDate :=
  match parseDay l with
  | none => none
  | some (d, r0) =>
    match r0 with
    | [] => none
    | c1 :: r1 =>
      if c1 = sep then
        match parseMonth r1 with
        | none => none
        | some (m, r2) =>
          match r2 with
          | [] => none
          | c2 :: r3 =>
            if c2 = sep then
              match parseYear4 r3 with
              | none => none
              | some (y, r4) =>
                match r4 with
                | [] => if dateOk y m d then some ⟨y, m, d⟩ else none
                | _ :: _ => none
            else none
      else none

/-- The `ValidationError` for a parsed date after the current day. -/
def futureDateError : PyErr := .validationError "Visit date cannot be in the future"

/-- The `ValidationError` when no format matches. -/
def badFormatError : PyErr :=
  .validationError "Invalid date format. Use YYYY-MM-DD, DD/MM/YYYY, or DD-MM-YYYY"

/-- `InputValidator.validate_date` (input_validator.py 36-63): strip the
input, try the three formats in order — `strptime` raising `ValueError`
(format mismatch or invalid date) moves on to the next format; a
successful parse is checked against `today` (`date.today()`), raising the
future-date `ValidationError` (which the `except ValueError` clause does
not catch) or returning the date; when no format worked, raise the
bad-format `ValidationError`. -/
def validateDate (value : String) (today : PyDate) : Except PyErr PyDate :=
  match strptimeYmd (pyStrip value).data with
  | some d => if dateLt today d then .error futureDateError else .ok d
  | none =>
    match strptimeDmy '/' (pyStrip value).data with
    | some d => if dateLt today d then .error futureDateError else .ok d
    | none =>
      match strptimeDmy '-' (pyStrip value).data with
      | some d => if dateLt today d then .error futureDateError else .ok d
      | none => .error badFormatError

/-- The stripped input parses to `d` under one of the three accepted
formats (the helper strips before matching, so format matching is read on
the stripped input). -/
def matchesDateFormat (value : String) (d : PyDate) : Prop :=
  strptimeYmd (pyStrip value).data = some d ∨
    strptimeDmy '/' (pyStrip value).data = some d ∨
    strptimeDmy '-' (pyStrip value).data = some d

/-! ## The abstract-method structure of the repository classes

`src/repositories/base.py` declares the two repository interfaces with
`@abstractmethod`; the Python `abc` machinery makes instantiating a subclass
raise `TypeError` exactly when some abstract method is left unimplemented. -/

/-- The abstract methods of `RestaurantRepository` (base.py 13-106). -/
def restaurantRepositoryAbstractMethods : List String :=
  ["add", "get_by_id", "get_all", "update", "delete",
   "search_by_name", "filter_by_country"]

/-- The methods defined by `SqliteRestaurantRepository`
(restaurant_repository.py 14-215). -/
def sqliteRestaurantRepositoryMethods : List String :=
  ["__init__", "_ensure_database_exists", "_row_to_restaurant",
   "add", "get_by_id", "get_all", "update", "delete"]

/-- The abstract methods of `VisitRepository` (base.py 109-228). -/
def visitRepositoryAbstractMethods : List String :=
  ["add", "get_by_id", "get_by_restaurant_id", "get_all", "update",
   "delete", "delete_by_restaurant_id", "filter_by_meal_type",
   "filter_by_rating"]

/-- The methods defined by `SqliteVisitRepository`
(visit_repository.py 16-206). -/
def sqliteVisitRepositoryMethods : List String :=
  ["__init__", "_ensure_database_exists", "_row_to_visit",
   "add", "get_by_id", "get_by_restaurant_id", "get_all"]

/-- The abstract methods a concrete class leaves unimplemented. -/
def unimplementedAbstract (abstracts implemented : List String) : List String :=
  abstracts.filter (fun m => !(implemented.contains m))

/-- Python `abc` semantics: `cls(...)` raises
`TypeError` (cannot instantiate abstract class) iff at least one
abstract method remains unimplemented. -/
def constructionRaisesTypeError (abstracts implemented : List String) : Bool :=
  !((unimplementedAbstract abstracts implemented).isEmpty)

/-! ## Specification-side predicates -/

/-- The valid Restaurant field sets as the specification states them:
required fields non-blank after trimming, size ceilings on the supplied
values, price tier in 1-4 (the optional ceilings are phrased on
`optLen`, which coincides with the source reading of `len` on truthy
values because `None` and the empty string have length 0). -/
def restaurantFieldsOk (r : RestaurantRec) : Prop :=
  pyStrip r.name ≠ "" ∧ r.name.length ≤ 100 ∧
  pyStrip r.location ≠ "" ∧ r.location.length ≤ 150 ∧
  pyStrip r.country ≠ "" ∧ r.country.length ≤ 100 ∧
  r.price_range ∈ ([1, 2, 3, 4] : List Int) ∧
  optLen r.cuisine_type ≤ 50 ∧ optLen r.phone ≤ 20 ∧
  optLen r.website ≤ 200 ∧ optLen r.social_media ≤ 200

/-- The normalization `Restaurant._validate` applies on success: required
string fields stripped, truthy optional string fields stripped. -/
def restaurantNormalize (r : RestaurantRec) : RestaurantRec :=
  { r with
    name := pyStrip r.name
    location := pyStrip r.location
    country := pyStrip r.country
    cuisine_type := stripIfTruthy r.cuisine_type
    phone := stripIfTruthy r.phone
    website := stripIfTruthy r.website
    social_media := stripIfTruthy r.social_media }

/-- The first of the three formats that parses the (already stripped)
input, mirroring the loop order of `validate_date`. -/
def dateFirstParse (l : List Char) : Option PyDate :=
  match strptimeYmd l with
  | some d => some d
  | none =>
    match strptimeDmy '/' l with
    | some d => some d
    | none => strptimeDmy '-' l

/-! ## Sample data for concrete evaluations -/

/-- The reference date used for concrete evaluations (`date.today()`). -/
def today0 : PyDate := ⟨2026, 10, 12⟩

/-- A stored, field-valid restaurant row. -/
def sampleRestaurantRow : RestaurantRow :=
  { id := 1, name := "Trattoria Roma", location := "Rome", country := "Italy",
    cuisine_type := none, price_range := 2, phone := none, website := none,
    social_media := none }

/-- A stored, field-valid visit row referencing `sampleRestaurantRow`. -/
def sampleVisitRow : VisitRow :=
  { id := 1, restaurant_id := 1, visit_date := ⟨2024, 1, 15⟩, rating := 5,
    meal_type := "dinner", service_rating := none, dishes_ordered := none,
    recommended_dishes := none, beverage_ordered := none, total_cost := none,
    notes := none, would_return := true }

/-- A database holding one restaurant and no visit. -/
def dbRestaurantOnly : Database :=
  { restaurants := [sampleRestaurantRow], restaurantNextId := 2,
    visits := [], visitNextId := 1 }

/-- A database holding one restaurant and its visit. -/
def dbWithVisit : Database :=
  { restaurants := [sampleRestaurantRow], restaurantNextId := 2,
    visits := [sampleVisitRow], visitNextId := 2 }

/-- The scalar arguments of a field-valid `create_visit` call for
restaurant `1`. -/
def sampleVisitArgs : VisitRec :=
  { restaurant_id := 1, visit_date := ⟨2024, 1, 15⟩, rating := 5,
    meal_type := "dinner" }

/-- A valid restaurant field set with surrounding whitespace, used to
witness the validation characterization. -/
def paddedRestaurantFields : RestaurantRec :=
  { name := " Trattoria Roma ", location := " Rome", country := "Italy ",
    price_range := 2, cuisine_type := some " Italian " }

/-- The same restaurant field set already normalized, used to witness the
storage round trip. -/
def normalizedRestaurantFields : RestaurantRec :=
  { name := "Trattoria Roma", location := "Rome", country := "Italy",
    price_range := 2, cuisine_type := some "Italian" }

/-- An empty database whose next restaurant identifier is `1`. -/
def emptyDb : Database :=
  { restaurants := [], restaurantNextId := 1, visits := [], visitNextId := 1 }

/-! ## Claim C1 — Visit construction

`Visit.__post_init__` runs `_validate`, whose first guard (visit.py line
69) reads the misspelled attribute `resaurant_id` whenever
`restaurant_id` is an `int`, so every construction from an integer
`restaurant_id` raises `AttributeError` instead of returning a normalized
instance or a `ValidationError`. -/

/-- C1: constructing a `Visit` from a fully valid field set (existing-style
integer restaurant id `1`, a past date, rating `5`, recognized meal type
`"dinner"`, all optional fields at their defaults) does not return a
normalized instance: it raises `AttributeError`, refuting the claim that
construction succeeds for every valid field set. -/
theorem claimC1_visit_construction_raises :
    visitNew today0
      { restaurant_id := 1, visit_date := ⟨2024, 1, 15⟩, rating := 5,
        meal_type := "dinner" } = .error .attributeError := rfl

/-! ## Claim C2 — filter visits by meal type -/

/-- C2: `VisitService.get_visit_by_meal_type` raises `ValidationError` on a
blank value and on an unrecognized value, but on the recognized value
`"dinner"` — even with a matching visit in storage — it returns `None`
(`.ok none`) rather than the list of matching visits, because the `return`
of the repository filter sits unreachably after the `raise` in the
invalid-value branch. -/
theorem claimC2_meal_type_filter_returns_none :
    getVisitByMealTypeSvc dbWithVisit "dinner" = .ok none ∧
    dbWithVisit.visits.filter (fun v => v.meal_type = "dinner") = [sampleVisitRow] ∧
    getVisitByMealTypeSvc dbWithVisit "   " =
      .error (.validationError "Meal type cannot be empty") ∧
    getVisitByMealTypeSvc dbWithVisit "supper" =
      .error (.validationError
        "Ivalid meal type. Must be one of breakfast, lunch, dinner, brunch, other") :=
  ⟨rfl, rfl, rfl, rfl⟩

/-! ## Claim C5 — no storage-level cascade on restaurant delete -/

/-- C5: `SqliteRestaurantRepository.delete` runs on a connection that never
enables `PRAGMA foreign_keys`, so deleting restaurant `1` from a state in
which visit row `1` references it reports success and removes the
restaurant row, yet the dependent visit row remains — refuting the claimed
storage-level cascade. -/
theorem claimC5_delete_does_not_cascade :
    (sqliteRestaurantDelete dbWithVisit 1).2 = true ∧
    (sqliteRestaurantDelete dbWithVisit 1).1.restaurants = [] ∧
    (sqliteRestaurantDelete dbWithVisit 1).1.visits.filter
      (fun v => v.restaurant_id = 1) = [sampleVisitRow] :=
  ⟨rfl, rfl, rfl⟩

/-! ## Claim C6 — both concrete repositories are uninstantiable -/

/-- C6: `SqliteRestaurantRepository` leaves exactly `search_by_name` and
`filter_by_country` of the `RestaurantRepository` abstract methods
unimplemented, and `SqliteVisitRepository` leaves exactly `update`,
`delete`, `delete_by_restaurant_id`, `filter_by_meal_type` and
`filter_by_rating` of the `VisitRepository` abstract methods
unimplemented; by the `abc` semantics, constructing either class therefore
raises `TypeError`, leaving every interface operation unreachable through
these classes. -/
theorem claimC6_repositories_unconstructible :
    unimplementedAbstract restaurantRepositoryAbstractMethods
        sqliteRestaurantRepositoryMethods = ["search_by_name", "filter_by_country"] ∧
    unimplementedAbstract visitRepositoryAbstractMethods
        sqliteVisitRepositoryMethods =
      ["update", "delete", "delete_by_restaurant_id", "filter_by_meal_type",
       "filter_by_rating"] ∧
    constructionRaisesTypeError restaurantRepositoryAbstractMethods
        sqliteRestaurantRepositoryMethods = true ∧
    constructionRaisesTypeError visitRepositoryAbstractMethods
        sqliteVisitRepositoryMethods = true :=
  ⟨rfl, rfl, rfl, rfl⟩

/-! ## Claim C3 — Visit service create -/

/-- C3: on a state holding restaurant `1` with no visit, `create_visit`
with a fully valid field set raises `AttributeError` instead of
validating, persisting and returning the visit: the concrete
`get_by_restaurant_id` fails on its misspelled `rowfactory` attribute, and
even the `Visit` construction that would follow a conforming lookup raises
`AttributeError` itself (visit.py line 69), so nothing is persisted.  The
absent-restaurant branch does raise `NotFoundError` as claimed. -/
theorem claimC3_create_visit_raises :
    createVisitSvc dbRestaurantOnly today0 sampleVisitArgs = .error .attributeError ∧
    createVisitSvc dbRestaurantOnly today0 { sampleVisitArgs with restaurant_id := 2 } =
      .error .notFoundError ∧
    visitNew today0 { sampleVisitArgs with id := none } = .error .attributeError :=
  ⟨rfl, rfl, rfl⟩

/-! ## Claim C4 — Restaurant service delete -/

/-- C4: `delete_restaurant` raises `NotFoundError` for an absent id as
claimed, but for an existing restaurant — whether or not a visit
references it — the concrete `SqliteVisitRepository.get_by_restaurant_id`
raises `AttributeError` on its misspelled `rowfactory` attribute before
the visit rule can be applied, so neither the claimed
`BusinessRuleViolationError` nor the claimed successful delete is
reachable.  Over the interface-conforming visit lookup the service logic
itself does behave as claimed: blocked delete with the visit still stored,
then visit deletion followed by a successful restaurant deletion. -/
theorem claimC4_delete_restaurant_raises :
    deleteRestaurantSvc dbRestaurantOnly 2 = .error .notFoundError ∧
    deleteRestaurantSvc dbRestaurantOnly 1 = .error .attributeError ∧
    deleteRestaurantSvc dbWithVisit 1 = .error .attributeError ∧
    deleteRestaurantSvcConforming dbWithVisit 1 = .error .businessRuleViolationError ∧
    deleteVisitForRestaurantSvc dbWithVisit 1 =
      .ok { restaurants := [sampleRestaurantRow], restaurantNextId := 2,
            visits := [], visitNextId := 2 } ∧
    deleteRestaurantSvcConforming
        { restaurants := [sampleRestaurantRow], restaurantNextId := 2,
          visits := [], visitNextId := 2 } 1 =
      .ok { restaurants := [], restaurantNextId := 2, visits := [], visitNextId := 2 } :=
  ⟨rfl, rfl, rfl, rfl, rfl, rfl⟩

/-! ## Claim C9 — get_all ordering -/

/-- A second stored restaurant row, with a name sorting before the
others. -/
def alphaRestaurantRow : RestaurantRow :=
  { id := 2, name := "Alpha Bistro", location := "Paris", country := "France",
    cuisine_type := none, price_range := 3, phone := none, website := none,
    social_media := none }

/-- A third stored restaurant row, with a name sorting between the
others. -/
def mangoRestaurantRow : RestaurantRow :=
  { id := 3, name := "Mango House", location := "Lisbon", country := "Portugal",
    cuisine_type := none, price_range := 1, phone := none, website := none,
    social_media := none }

/-- Three restaurants stored in non-alphabetical order, plus one stored
visit. -/
def dbThreeRestaurants : Database :=
  { restaurants := [sampleRestaurantRow, alphaRestaurantRow, mangoRestaurantRow],
    restaurantNextId := 4,
    visits := [sampleVisitRow], visitNextId := 2 }

/-- C9: the restaurant `get_all` does return every stored restaurant
ordered by name ascending (here: Alpha Bistro, Mango House, Trattoria
Roma from a store listing Trattoria Roma first), but the visit `get_all`
on a store holding one visit row raises `AttributeError` instead of
returning the list ordered by date descending, because `_row_to_visit`
constructs a `Visit` and its validation reads the misspelled
`resaurant_id` attribute. -/
theorem claimC9_get_all_ordering :
    sqliteRestaurantGetAll dbThreeRestaurants =
      .ok [{ name := "Alpha Bistro", location := "Paris", country := "France",
             price_range := 3, id := some 2 },
           { name := "Mango House", location := "Lisbon", country := "Portugal",
             price_range := 1, id := some 3 },
           { name := "Trattoria Roma", location := "Rome", country := "Italy",
             price_range := 2, id := some 1 }] ∧
    sqliteVisitGetAll dbThreeRestaurants today0 = .error .attributeError :=
  ⟨rfl, rfl⟩

/-! ## Claim C7 — Restaurant validation characterization -/

theorem blank_or_iff (s : String) : (s = "" ∨ pyStrip s = "") ↔ pyStrip s = "" := by
  constructor
  · rintro (rfl | h)
    · rfl
    · exact h
  · exact Or.inr

theorem pyTruthy_false_optLen {o : Option String} (h : pyTruthy o = false) :
    optLen o = 0 := by
  rcases o with _ | s
  · rfl
  · simp only [pyTruthy, ne_eq, decide_not, Bool.not_eq_false', decide_eq_true_eq] at h
    subst h
    rfl

theorem not_truthyLen_iff (o : Option String) (k : Nat) :
    ¬(pyTruthy o = true ∧ optLen o > k) ↔ optLen o ≤ k := by
  cases hb : pyTruthy o
  · simp [pyTruthy_false_optLen hb]
  · simp [Nat.not_lt]

theorem stripIfTruthy_eq_map (o : Option String) : stripIfTruthy o = o.map pyStrip := by
  rcases o with _ | s
  · rfl
  · by_cases h : s = ""
    · subst h
      rfl
    · simp [stripIfTruthy, pyTruthy, h]

theorem restaurantFieldsOk_of_checks {r : RestaurantRec}
    (h1 : ¬(r.name = "" ∨ pyStrip r.name = ""))
    (h2 : ¬(r.name.length > 100))
    (h3 : ¬(r.location = "" ∨ pyStrip r.location = ""))
    (h4 : ¬(r.location.length > 150))
    (h5 : ¬(r.country = "" ∨ pyStrip r.country = ""))
    (h6 : ¬(r.country.length > 100))
    (h7 : ¬(r.price_range ∉ ([1, 2, 3, 4] : List Int)))
    (h8 : ¬(pyTruthy r.cuisine_type = true ∧ optLen r.cuisine_type > 50))
    (h9 : ¬(pyTruthy r.phone = true ∧ optLen r.phone > 20))
    (h10 : ¬(pyTruthy r.website = true ∧ optLen r.website > 200))
    (h11 : ¬(pyTruthy r.social_media = true ∧ optLen r.social_media > 200)) :
    restaurantFieldsOk r := by
  refine ⟨?_, ?_, ?_, ?_, ?_, ?_, ?_, ?_, ?_, ?_, ?_⟩
  · exact fun he => h1 (Or.inr he)
  · omega
  · exact fun he => h3 (Or.inr he)
  · omega
  · exact fun he => h5 (Or.inr he)
  · omega
  · exact not_not.mp h7
  · exact (not_truthyLen_iff _ _).mp h8
  · exact (not_truthyLen_iff _ _).mp h9
  · exact (not_truthyLen_iff _ _).mp h10
  · exact (not_truthyLen_iff _ _).mp h11

theorem restaurantValidate_ok_of {r : RestaurantRec} (h : restaurantFieldsOk r) :
    restaurantValidate r = .ok (restaurantNormalize r) := by
  obtain ⟨c1, c2, c3, c4, c5, c6, c7, c8, c9, c10, c11⟩ := h
  have n1 : ¬(r.name = "" ∨ pyStrip r.name = "") := fun hh => c1 ((blank_or_iff _).mp hh)
  have n2 : ¬(r.name.length > 100) := by omega
  have n3 : ¬(r.location = "" ∨ pyStrip r.location = "") :=
    fun hh => c3 ((blank_or_iff _).mp hh)
  have n4 : ¬(r.location.length > 150) := by omega
  have n5 : ¬(r.country = "" ∨ pyStrip r.country = "") :=
    fun hh => c5 ((blank_or_iff _).mp hh)
  have n6 : ¬(r.country.length > 100) := by omega
  have n7 : ¬(r.price_range ∉ ([1, 2, 3, 4] : List Int)) := not_not_intro c7
  have n8 : ¬(pyTruthy r.cuisine_type = true ∧ optLen r.cuisine_type > 50) :=
    (not_truthyLen_iff _ _).mpr c8
  have n9 : ¬(pyTruthy r.phone = true ∧ optLen r.phone > 20) :=
    (not_truthyLen_iff _ _).mpr c9
  have n10 : ¬(pyTruthy r.website = true ∧ optLen r.website > 200) :=
    (not_truthyLen_iff _ _).mpr c10
  have n11 : ¬(pyTruthy r.social_media = true ∧ optLen r.social_media > 200) :=
    (not_truthyLen_iff _ _).mpr c11
  rw [restaurantValidate, if_neg n1, if_neg n2, if_neg n3, if_neg n4, if_neg n5,
    if_neg n6, if_neg n7, if_neg n8, if_neg n9, if_neg n10, if_neg n11]
  rfl

theorem restaurantValidate_ok_or_error (r : RestaurantRec) :
    (restaurantFieldsOk r ∧ restaurantValidate r = .ok (restaurantNormalize r)) ∨
      ((¬ restaurantFieldsOk r) ∧
        ∃ msg, restaurantValidate r = .error (.validationError msg)) := by
  by_cases h1 : (r.name = "" ∨ pyStrip r.name = "")
  · exact Or.inr ⟨fun hc => hc.1 ((blank_or_iff _).mp h1), _,
      by rw [restaurantValidate, if_pos h1]⟩
  by_cases h2 : (r.name.length > 100)
  · exact Or.inr ⟨fun hc => absurd hc.2.1 (Nat.not_le.mpr h2), _,
      by rw [restaurantValidate, if_neg h1, if_pos h2]⟩
  by_cases h3 : (r.location = "" ∨ pyStrip r.location = "")
  · exact Or.inr ⟨fun hc => hc.2.2.1 ((blank_or_iff _).mp h3), _,
      by rw [restaurantValidate, if_neg h1, if_neg h2, if_pos h3]⟩
  by_cases h4 : (r.location.length > 150)
  · exact Or.inr ⟨fun hc => absurd hc.2.2.2.1 (Nat.not_le.mpr h4), _,
      by rw [restaurantValidate, if_neg h1, if_neg h2, if_neg h3, if_pos h4]⟩
  by_cases h5 : (r.country = "" ∨ pyStrip r.country = "")
  · exact Or.inr ⟨fun hc => hc.2.2.2.2.1 ((blank_or_iff _).mp h5), _,
      by rw [restaurantValidate, if_neg h1, if_neg h2, if_neg h3, if_neg h4, if_pos h5]⟩
  by_cases h6 : (r.country.length > 100)
  · exact Or.inr ⟨fun hc => absurd hc.2.2.2.2.2.1 (Nat.not_le.mpr h6), _,
      by rw [restaurantValidate, if_neg h1, if_neg h2, if_neg h3, if_neg h4, if_neg h5,
        if_pos h6]⟩
  by_cases h7 : (r.price_range ∉ ([1, 2, 3, 4] : List Int))
  · exact Or.inr ⟨fun hc => h7 hc.2.2.2.2.2.2.1, _,
      by rw [restaurantValidate, if_neg h1, if_neg h2, if_neg h3, if_neg h4, if_neg h5,
        if_neg h6, if_pos h7]⟩
  by_cases h8 : (pyTruthy r.cuisine_type = true ∧ optLen r.cuisine_type > 50)
  · exact Or.inr ⟨fun hc => absurd hc.2.2.2.2.2.2.2.1 (Nat.not_le.mpr h8.2), _,
      by rw [restaurantValidate, if_neg h1, if_neg h2, if_neg h3, if_neg h4, if_neg h5,
        if_neg h6, if_neg h7, if_pos h8]⟩
  by_cases h9 : (pyTruthy r.phone = true ∧ optLen r.phone > 20)
  · exact Or.inr ⟨fun hc => absurd hc.2.2.2.2.2.2.2.2.1 (Nat.not_le.mpr h9.2), _,
      by rw [restaurantValidate, if_neg h1, if_neg h2, if_neg h3, if_neg h4, if_neg h5,
        if_neg h6, if_neg h7, if_neg h8, if_pos h9]⟩
  by_cases h10 : (pyTruthy r.website = true ∧ optLen r.website > 200)
  · exact Or.inr ⟨fun hc => absurd hc.2.2.2.2.2.2.2.2.2.1 (Nat.not_le.mpr h10.2), _,
      by rw [restaurantValidate, if_neg h1, if_neg h2, if_neg h3, if_neg h4, if_neg h5,
        if_neg h6, if_neg h7, if_neg h8, if_neg h9, if_pos h10]⟩
  by_cases h11 : (pyTruthy r.social_media = true ∧ optLen r.social_media > 200)
  · exact Or.inr ⟨fun hc => absurd hc.2.2.2.2.2.2.2.2.2.2 (Nat.not_le.mpr h11.2), _,
      by rw [restaurantValidate, if_neg h1, if_neg h2, if_neg h3, if_neg h4, if_neg h5,
        if_neg h6, if_neg h7, if_neg h8, if_neg h9, if_neg h10, if_pos h11]⟩
  exact Or.inl ⟨restaurantFieldsOk_of_checks h1 h2 h3 h4 h5 h6 h7 h8 h9 h10 h11,
    by rw [restaurantValidate, if_neg h1, if_neg h2, if_neg h3, if_neg h4, if_neg h5,
      if_neg h6, if_neg h7, if_neg h8, if_neg h9, if_neg h10, if_neg h11]; rfl⟩

theorem restaurantValidate_error_of {r : RestaurantRec} (h : ¬ restaurantFieldsOk r) :
    ∃ msg, restaurantValidate r = .error (.validationError msg) := by
  rcases restaurantValidate_ok_or_error r with ⟨hOk, -⟩ | ⟨-, hE⟩
  · exact absurd hOk h
  · exact hE

theorem restaurantValidate_ok_iff {r r2 : RestaurantRec} :
    restaurantValidate r = .ok r2 ↔
      (restaurantFieldsOk r ∧ r2 = restaurantNormalize r) := by
  rcases restaurantValidate_ok_or_error r with ⟨hOk, hV⟩ | ⟨hBad, m, hV⟩
  · rw [hV]
    constructor
    · intro hh
      injection hh with hh
      exact ⟨hOk, hh.symm⟩
    · rintro ⟨-, rfl⟩
      rfl
  · rw [hV]
    constructor
    · intro hh
      exact absurd hh (by simp)
    · rintro ⟨hOk, -⟩
      exact absurd hOk hBad

/-- C7: `Restaurant` construction succeeds exactly when the required
fields are non-blank after trimming, the supplied values respect the size
ceilings (name 100, location 150, country 100, cuisine type 50, phone 20,
website 200, social media 200) and the price tier is in 1-4; on success
every string field of the instance is the trimmed input, and otherwise it
fails with a `ValidationError`. -/
theorem claimC7_restaurant_validation (r : RestaurantRec) :
    ((∃ r2, restaurantValidate r = .ok r2) ↔ restaurantFieldsOk r) ∧
    (∀ r2, restaurantValidate r = .ok r2 →
      r2.name = pyStrip r.name ∧ r2.location = pyStrip r.location ∧
      r2.country = pyStrip r.country ∧
      r2.cuisine_type = r.cuisine_type.map pyStrip ∧
      r2.phone = r.phone.map pyStrip ∧
      r2.website = r.website.map pyStrip ∧
      r2.social_media = r.social_media.map pyStrip ∧
      r2.price_range = r.price_range ∧ r2.id = r.id) ∧
    (¬ restaurantFieldsOk r → ∃ msg, restaurantValidate r = .error (.validationError msg)) := by
  refine ⟨⟨?_, ?_⟩, ?_, fun h => restaurantValidate_error_of h⟩
  · rintro ⟨r2, h⟩
    exact (restaurantValidate_ok_iff.mp h).1
  · intro hok
    exact ⟨restaurantNormalize r, restaurantValidate_ok_iff.mpr ⟨hok, rfl⟩⟩
  · intro r2 h
    obtain ⟨-, rfl⟩ := restaurantValidate_ok_iff.mp h
    exact ⟨rfl, rfl, rfl, stripIfTruthy_eq_map _, stripIfTruthy_eq_map _,
      stripIfTruthy_eq_map _, stripIfTruthy_eq_map _, rfl, rfl⟩

/-- Witness for C7 at a concrete field set with surrounding whitespace. -/
theorem claimC7_restaurant_validation_witness :
    ∃ r2, restaurantValidate paddedRestaurantFields = .ok r2 ∧
      r2.name = "Trattoria Roma" ∧ r2.cuisine_type = some "Italian" := by
  obtain ⟨r2, h⟩ :=
    (claimC7_restaurant_validation paddedRestaurantFields).1.mpr
      (by unfold restaurantFieldsOk; decide)
  obtain ⟨hn, -, -, hc, -⟩ :=
    (claimC7_restaurant_validation paddedRestaurantFields).2.1 r2 h
  refine ⟨r2, h, ?_, ?_⟩
  · rw [hn]
    rfl
  · rw [hc]
    rfl

/-! ## Claim C10 — storage round trip for restaurants -/

theorem dropWhile_idem (p : α → Bool) (l : List α) :
    (l.dropWhile p).dropWhile p = l.dropWhile p := by
  induction l with
  | nil => rfl
  | cons a t ih =>
    rw [List.dropWhile_cons]
    by_cases h : p a
    · rw [if_pos h]
      exact ih
    · rw [if_neg h, List.dropWhile_cons, if_neg h]

theorem dropWhile_eq_self_of_prefix {p : α → Bool} {l m : List α}
    (hpre : m <+: l) (hl : l.dropWhile p = l) : m.dropWhile p = m := by
  cases m with
  | nil => rfl
  | cons a t =>
    cases l with
    | nil => exact absurd hpre (by simp)
    | cons b u =>
      obtain ⟨rfl, -⟩ := List.cons_prefix_cons.mp hpre
      have hpb : p a = false := by
        by_contra hx
        rw [Bool.not_eq_false] at hx
        rw [List.dropWhile_cons, if_pos hx] at hl
        have hlen := (List.dropWhile_suffix (l := u) p).sublist.length_le
        rw [hl] at hlen
        simp at hlen
      rw [List.dropWhile_cons, if_neg (by simp [hpb])]

theorem pyStripList_left_trimmed (l : List Char) :
    (pyStripList l).dropWhile isPySpace = pyStripList l := by
  apply dropWhile_eq_self_of_prefix (l := l.dropWhile isPySpace)
  · rw [← List.reverse_suffix]
    show ((l.dropWhile isPySpace).reverse.dropWhile isPySpace).reverse.reverse <:+
      (l.dropWhile isPySpace).reverse
    rw [List.reverse_reverse]
    exact List.dropWhile_suffix _
  · exact dropWhile_idem _ _

theorem pyStripList_of_left_trimmed {X : List Char}
    (h : X.dropWhile isPySpace = X) :
    pyStripList X = (X.reverse.dropWhile isPySpace).reverse := by
  unfold pyStripList
  rw [h]

theorem pyStripList_idem (l : List Char) :
    pyStripList (pyStripList l) = pyStripList l := by
  rw [pyStripList_of_left_trimmed (pyStripList_left_trimmed l)]
  have h2 : (pyStripList l).reverse =
      (l.dropWhile isPySpace).reverse.dropWhile isPySpace := by
    unfold pyStripList
    rw [List.reverse_reverse]
  rw [h2, dropWhile_idem]
  rfl

theorem pyStrip_idem (s : String) : pyStrip (pyStrip s) = pyStrip s :=
  congrArg String.mk (pyStripList_idem s.data)

theorem pyStripList_length_le (l : List Char) :
    (pyStripList l).length ≤ l.length := by
  unfold pyStripList
  rw [List.length_reverse]
  refine le_trans ((List.dropWhile_suffix _).sublist.length_le) ?_
  rw [List.length_reverse]
  exact (List.dropWhile_suffix _).sublist.length_le

theorem pyStrip_length_le (s : String) : (pyStrip s).length ≤ s.length :=
  pyStripList_length_le s.data

theorem stripIfTruthy_idem (o : Option String) :
    stripIfTruthy (stripIfTruthy o) = stripIfTruthy o := by
  simp only [stripIfTruthy_eq_map, Option.map_map]
  rcases o with _ | s
  · rfl
  · show some (pyStrip (pyStrip s)) = some (pyStrip s)
    rw [pyStrip_idem]

theorem optLen_map_pyStrip_le (o : Option String) :
    optLen (o.map pyStrip) ≤ optLen o := by
  rcases o with _ | s
  · simp [optLen]
  · simpa [optLen] using pyStrip_length_le s

theorem restaurantFieldsOk_normalize {r : RestaurantRec}
    (h : restaurantFieldsOk r) : restaurantFieldsOk (restaurantNormalize r) := by
  obtain ⟨c1, c2, c3, c4, c5, c6, c7, c8, c9, c10, c11⟩ := h
  refine ⟨?_, ?_, ?_, ?_, ?_, ?_, c7, ?_, ?_, ?_, ?_⟩
  · show pyStrip (pyStrip r.name) ≠ ""
    rw [pyStrip_idem]
    exact c1
  · exact le_trans (pyStrip_length_le _) c2
  · show pyStrip (pyStrip r.location) ≠ ""
    rw [pyStrip_idem]
    exact c3
  · exact le_trans (pyStrip_length_le _) c4
  · show pyStrip (pyStrip r.country) ≠ ""
    rw [pyStrip_idem]
    exact c5
  · exact le_trans (pyStrip_length_le _) c6
  · show optLen (stripIfTruthy r.cuisine_type) ≤ 50
    rw [stripIfTruthy_eq_map]
    exact le_trans (optLen_map_pyStrip_le _) c8
  · show optLen (stripIfTruthy r.phone) ≤ 20
    rw [stripIfTruthy_eq_map]
    exact le_trans (optLen_map_pyStrip_le _) c9
  · show optLen (stripIfTruthy r.website) ≤ 200
    rw [stripIfTruthy_eq_map]
    exact le_trans (optLen_map_pyStrip_le _) c10
  · show optLen (stripIfTruthy r.social_media) ≤ 200
    rw [stripIfTruthy_eq_map]
    exact le_trans (optLen_map_pyStrip_le _) c11

theorem restaurantNormalize_idem (r : RestaurantRec) :
    restaurantNormalize (restaurantNormalize r) = restaurantNormalize r := by
  cases r
  simp [restaurantNormalize, pyStrip_idem, stripIfTruthy_idem]

theorem find?_append_of_none {p : α → Bool} {l1 l2 : List α}
    (h : ∀ x ∈ l1, p x = false) : (l1 ++ l2).find? p = l2.find? p := by
  induction l1 with
  | nil => rfl
  | cons a t ih =>
    have ha : p a = false := h a (List.mem_cons_self a t)
    rw [List.cons_append, List.find?_cons_of_neg _ (by rw [ha]; exact Bool.false_ne_true)]
    exact ih fun x hx => h x (List.mem_cons_of_mem a hx)

/-- C10: for every valid restaurant (a successful construction `r` from
fields `f`) and every storage state whose rows do not already use the next
identifier, `add` returns `r` with the assigned identifier and
`get_by_id` on the resulting state returns a restaurant equal to `r` in
every field except that identifier. -/
theorem claimC10_add_get_roundtrip (f r : RestaurantRec) (db : Database)
    (hok : restaurantNew f = .ok r)
    (hfresh : ∀ row ∈ db.restaurants, row.id ≠ db.restaurantNextId) :
    (sqliteRestaurantAdd db r).2 = .ok { r with id := some db.restaurantNextId } ∧
    sqliteRestaurantGetById (sqliteRestaurantAdd db r).1 db.restaurantNextId =
      .ok (some { r with id := some db.restaurantNextId }) := by
  obtain ⟨hfOk, hr⟩ := restaurantValidate_ok_iff.mp hok
  subst hr
  have hNok : restaurantValidate
      ({ restaurantNormalize f with id := some db.restaurantNextId }) =
      .ok ({ restaurantNormalize f with id := some db.restaurantNextId }) := by
    apply restaurantValidate_ok_iff.mpr
    refine ⟨restaurantFieldsOk_normalize hfOk, ?_⟩
    have h3 : restaurantNormalize
        ({ restaurantNormalize f with id := some db.restaurantNextId }) =
        { restaurantNormalize (restaurantNormalize f) with
          id := some db.restaurantNextId } := rfl
    rw [restaurantNormalize_idem] at h3
    exact h3.symm
  refine ⟨hNok, ?_⟩
  show (match ((sqliteRestaurantAdd db (restaurantNormalize f)).1).restaurants.find?
      (fun row => row.id = db.restaurantNextId) with
    | none => Except.ok none
    | some row => (rowToRestaurant row).map some) = _
  have hfind :
      ((sqliteRestaurantAdd db (restaurantNormalize f)).1).restaurants.find?
        (fun row => row.id = db.restaurantNextId) =
      some { id := db.restaurantNextId
             name := (restaurantNormalize f).name
             location := (restaurantNormalize f).location
             country := (restaurantNormalize f).country
             cuisine_type := (restaurantNormalize f).cuisine_type
             price_range := (restaurantNormalize f).price_range
             phone := (restaurantNormalize f).phone
             website := (restaurantNormalize f).website
             social_media := (restaurantNormalize f).social_media } := by
    show (db.restaurants ++ [_]).find? _ = _
    rw [find?_append_of_none (fun x hx => by simp [hfresh x hx])]
    simp [List.find?_cons]
  rw [hfind]
  show (restaurantNew
      ({ restaurantNormalize f with id := some db.restaurantNextId })).map some = _
  rw [show restaurantNew
      ({ restaurantNormalize f with id := some db.restaurantNextId }) =
      .ok ({ restaurantNormalize f with id := some db.restaurantNextId }) from hNok]
  rfl

/-- Witness for C10: an empty store, the padded field set of the C7
witness in normalized form. -/
theorem claimC10_add_get_roundtrip_witness :
    sqliteRestaurantGetById (sqliteRestaurantAdd emptyDb normalizedRestaurantFields).1 1 =
      .ok (some { normalizedRestaurantFields with id := some 1 }) :=
  (claimC10_add_get_roundtrip normalizedRestaurantFields normalizedRestaurantFields
    emptyDb rfl (by simp [emptyDb])).2

/-! ## Claim C8 — date-input validation

The three formats are pairwise exclusive: `%Y` consumes exactly four
digits, so a string accepted by `%Y-%m-%d` carries digits at positions 1
and 2 where `%d/%m/%Y` and `%d-%m-%Y` demand their separator after a one-
or two-character day field; and the two `DMY` formats demand different
separators at the same position.  Hence at most one format parses any
input, and `validate_date` — which tries them in order and raises on the
first successful parse when the date is in the future — accepts exactly
the strings one of the formats parses to a date not after `today`. -/

theorem parseDay_rest {c1 c2 : Char} {t : List Char} {d : Nat} {r : List Char}
    (h : parseDay (c1 :: c2 :: t) = some (d, r)) : r = t ∨ r = c2 :: t := by
  simp only [parseDay] at h
  split_ifs at h <;>
    (injection h with h
     injection h with h1 h2
     first
       | exact Or.inl h2.symm
       | exact Or.inr h2.symm)

theorem parseYear4_some {l : List Char} {y : Nat} {r : List Char}
    (h : parseYear4 l = some (y, r)) :
    ∃ a b c e, l = a :: b :: c :: e :: r ∧ a.isDigit = true ∧ b.isDigit = true ∧
      c.isDigit = true ∧ e.isDigit = true := by
  rcases l with _ | ⟨a, _ | ⟨b, _ | ⟨c, _ | ⟨e, rest⟩⟩⟩⟩
  · simp [parseYear4] at h
  · simp [parseYear4] at h
  · simp [parseYear4] at h
  · simp [parseYear4] at h
  · simp only [parseYear4] at h
    split_ifs at h with hd
    · injection h with h
      injection h with h1 h2
      subst h2
      exact ⟨a, b, c, e, rfl, hd.1, hd.2.1, hd.2.2.1, hd.2.2.2⟩

theorem strptimeYmd_shape {l : List Char} {dt : PyDate}
    (h : strptimeYmd l = some dt) :
    ∃ a b c e t, l = a :: b :: c :: e :: ('-' :: t) ∧
      b.isDigit = true ∧ c.isDigit = true := by
  cases hy : parseYear4 l with
  | none => simp [strptimeYmd, hy] at h
  | some pr =>
    obtain ⟨y, r0⟩ := pr
    obtain ⟨a, b, c, e, hl, -, hb, hc, -⟩ := parseYear4_some hy
    cases r0 with
    | nil => simp [strptimeYmd, hy] at h
    | cons c1 r1 =>
      by_cases h1 : c1 = '-'
      · subst h1
        exact ⟨a, b, c, e, r1, hl, hb, hc⟩
      · simp [strptimeYmd, hy, h1] at h

theorem isDigit_ne_of_not {c sep : Char} (hc : c.isDigit = true)
    (hsep : sep.isDigit = false) : c ≠ sep := by
  intro he
  rw [he, hsep] at hc
  exact Bool.false_ne_true hc

theorem strptimeDmy_none_of_digits {sep a b c : Char} {t : List Char}
    (hb : b.isDigit = true) (hc : c.isDigit = true)
    (hsep : sep.isDigit = false) :
    strptimeDmy sep (a :: b :: c :: t) = none := by
  cases hp : parseDay (a :: b :: c :: t) with
  | none => simp [strptimeDmy, hp]
  | some pr =>
    obtain ⟨dv, r⟩ := pr
    rcases parseDay_rest hp with rfl | rfl
    · simp [strptimeDmy, hp, isDigit_ne_of_not hc hsep]
    · simp [strptimeDmy, hp, isDigit_ne_of_not hb hsep]

theorem strptimeDmy_exclusive {l : List Char} {d1 d2 : PyDate}
    (h1 : strptimeDmy '/' l = some d1) (h2 : strptimeDmy '-' l = some d2) :
    False := by
  cases hp : parseDay l with
  | none => simp [strptimeDmy, hp] at h1
  | some pr =>
    obtain ⟨dv, r⟩ := pr
    cases r with
    | nil => simp [strptimeDmy, hp] at h1
    | cons c1 r1 =>
      by_cases e1 : c1 = '/'
      · subst e1
        simp [strptimeDmy, hp, (by decide : ((Char.ofNat 47) = (Char.ofNat 45)) = False)] at h2
      · simp [strptimeDmy, hp, e1] at h1

theorem strptimeYmd_excludes_dmy {l : List Char} {dt : PyDate} {sep : Char}
    (h : strptimeYmd l = some dt) (hsep : sep.isDigit = false) :
    strptimeDmy sep l = none := by
  obtain ⟨a, b, c, e, t, rfl, hb, hc⟩ := strptimeYmd_shape h
  exact strptimeDmy_none_of_digits hb hc hsep

theorem dateFirstParse_sound {l : List Char} {d : PyDate}
    (h : dateFirstParse l = some d) :
    strptimeYmd l = some d ∨ strptimeDmy '/' l = some d ∨
      strptimeDmy '-' l = some d := by
  cases h1 : strptimeYmd l with
  | some d0 =>
    simp only [dateFirstParse, h1] at h
    injection h with h
    subst h
    exact Or.inl rfl
  | none =>
    cases h2 : strptimeDmy '/' l with
    | some d0 =>
      simp only [dateFirstParse, h1, h2] at h
      injection h with h
      subst h
      exact Or.inr (Or.inl rfl)
    | none =>
      simp only [dateFirstParse, h1, h2] at h
      exact Or.inr (Or.inr h)

theorem matches_firstParse {value : String} {d : PyDate}
    (h : matchesDateFormat value d) :
    dateFirstParse (pyStrip value).data = some d := by
  rcases h with h | h | h
  · simp [dateFirstParse, h]
  · cases h1 : strptimeYmd (pyStrip value).data with
    | some d0 =>
      rw [strptimeYmd_excludes_dmy h1 (by decide)] at h
      exact absurd h (by simp)
    | none => simp [dateFirstParse, h1, h]
  · cases h1 : strptimeYmd (pyStrip value).data with
    | some d0 =>
      rw [strptimeYmd_excludes_dmy h1 (by decide)] at h
      exact absurd h (by simp)
    | none =>
      cases h2 : strptimeDmy '/' (pyStrip value).data with
      | some d0 => exact (strptimeDmy_exclusive h2 h).elim
      | none => simp [dateFirstParse, h1, h2, h]

theorem validateDate_eq (value : String) (today : PyDate) :
    validateDate value today =
      (match dateFirstParse (pyStrip value).data with
        | some d => if dateLt today d then .error futureDateError else .ok d
        | none => .error badFormatError) := by
  cases h1 : strptimeYmd (pyStrip value).data with
  | some d => simp [validateDate, dateFirstParse, h1]
  | none =>
    cases h2 : strptimeDmy '/' (pyStrip value).data with
    | some d => simp [validateDate, dateFirstParse, h1, h2]
    | none =>
      cases h3 : strptimeDmy '-' (pyStrip value).data with
      | some d => simp [validateDate, dateFirstParse, h1, h2, h3]
      | none => simp [validateDate, dateFirstParse, h1, h2, h3]

/-- C8: `validate_date` returns a calendar date exactly for the inputs
that one of the three formats parses (on the stripped input) to a date not
after `today`; it raises the future-date `ValidationError` whenever the
parsed date is after `today`, and the bad-format `ValidationError` when no
format parses the input. -/
theorem claimC8_validate_date (value : String) (today : PyDate) :
    (∀ d, validateDate value today = .ok d ↔
        (matchesDateFormat value d ∧ dateLe d today = true)) ∧
    (∀ d, matchesDateFormat value d → dateLe d today = false →
        validateDate value today = .error futureDateError) ∧
    ((∀ d, ¬ matchesDateFormat value d) →
        validateDate value today = .error badFormatError) := by
  have hval := validateDate_eq value today
  refine ⟨?_, ?_, ?_⟩
  · intro d
    constructor
    · intro h
      rw [hval] at h
      cases hfp : dateFirstParse (pyStrip value).data with
      | none =>
        simp only [hfp] at h
        exact absurd h (by simp)
      | some d0 =>
        simp only [hfp] at h
        by_cases hlt : dateLt today d0 = true
        · rw [if_pos hlt] at h
          exact absurd h (by simp)
        · rw [if_neg hlt] at h
          injection h with h
          subst h
          refine ⟨dateFirstParse_sound hfp, ?_⟩
          have hlt' : dateLt today d0 = false := by
            cases hx : dateLt today d0
            · rfl
            · exact absurd hx hlt
          simp [dateLe, hlt']
    · rintro ⟨hm, hle⟩
      have hfp := matches_firstParse hm
      rw [hval]
      simp only [hfp]
      have hlt : dateLt today d = false := by
        revert hle
        unfold dateLe
        cases dateLt today d <;> simp
      rw [if_neg (by rw [hlt]; exact Bool.false_ne_true)]
  · intro d hm hle
    have hfp := matches_firstParse hm
    rw [hval]
    simp only [hfp]
    have hlt : dateLt today d = true := by
      revert hle
      unfold dateLe
      cases dateLt today d <;> simp
    rw [if_pos hlt]
  · intro hnm
    rw [hval]
    cases hfp : dateFirstParse (pyStrip value).data with
    | none => simp only [hfp]
    | some d0 => exact absurd (dateFirstParse_sound hfp) (hnm d0)

/-- Witness for C8: a slash-format date is accepted, a future date and an
unrecognized separator are rejected with the respective errors. -/
theorem claimC8_validate_date_witness :
    validateDate "15/03/2024" today0 = .ok ⟨2024, 3, 15⟩ ∧
    validateDate " 2030-01-01 " today0 = .error futureDateError ∧
    validateDate "15.03.2024" today0 = .error badFormatError := by
  refine ⟨?_, ?_, ?_⟩
  · exact ((claimC8_validate_date "15/03/2024" today0).1 ⟨2024, 3, 15⟩).mpr
      ⟨Or.inr (Or.inl (by rfl)), rfl⟩
  · exact (claimC8_validate_date " 2030-01-01 " today0).2.1 ⟨2030, 1, 1⟩
      (Or.inl (by rfl)) rfl
  · refine (claimC8_validate_date "15.03.2024" today0).2.2 ?_
    intro d h
    rcases h with h | h | h
    · rw [show strptimeYmd (pyStrip "15.03.2024").data = none from rfl] at h
      exact absurd h (by simp)
    · rw [show strptimeDmy '/' (pyStrip "15.03.2024").data = none from rfl] at h
      exact absurd h (by simp)
    · rw [show strptimeDmy '-' (pyStrip "15.03.2024").data = none from rfl] at h
      exact absurd h (by simp)

end BiteTracker
